import Mathlib

/-!
Verification of the gallery lightbox controller of the Sea Glass Venue site
(`js/gallery.js`). The script is a DOM event-driven controller; we embed it
shallowly: module-level mutable variables and the observable DOM effects
become fields of an explicit state record, each handler function becomes a
state transition, and the presence or absence of the DOM anchors the script
looks up at load time becomes a record of booleans. Operations that can
throw a `TypeError` (dereferencing a missing anchor) return `Except String`.

Notes on host semantics used by the embedding:
- JavaScript `%` on numbers is the truncated remainder; on `Int` operands
  that is `Int.tmod`. (With a divisor of `0` JavaScript yields `NaN` while
  `Int.tmod a 0 = a`; every navigation statement below carries the
  hypothesis `0 < images.length`, so that corner is never relied upon.)
- `HTMLElement.focus()` moves focus only when the element is connected to
  the document; calling it on a detached element is a no-op. Elements are
  abstracted as `Nat` identifiers and the document keeps the list of
  currently attached element ids.
- `setTimeout` callbacks (the deferred focus of the close button after
  opening) and the `img.onload` opacity fade run asynchronously, after the
  synchronous transition has completed; the claims under verification are
  about the synchronous transitions, which is what the functions below
  model.
-/

/-- One entry of the `images` array built by `buildImageArray`:
`{ src: img.src, alt: img.alt, index: index }`. -/
structure ImageEntry where
  src : String
  alt : String
  index : Nat
deriving DecidableEq

/-- One element of the `.gallery-item` collection, exposing the wrapped
image's `src` and `alt`. -/
structure GalleryItem where
  imgSrc : String
  imgAlt : String
deriving DecidableEq

/-- Which of the DOM anchors looked up at module load time
(`document.getElementById` / `querySelector`) are present in the page. -/
structure Anchors where
  lightbox : Bool
  lightboxImage : Bool
  lightboxCaption : Bool
  lightboxCurrent : Bool
  lightboxTotal : Bool
  closeBtn : Bool
  prevBtn : Bool
  nextBtn : Bool
deriving DecidableEq

/-- The page with every anchor present (the intended markup). -/
def fullAnchors : Anchors :=
  ⟨true, true, true, true, true, true, true, true⟩

/-- A page whose markup lacks only the main image slot
(`#lightbox-image`). -/
def noImageSlotAnchors : Anchors :=
  { fullAnchors with lightboxImage := false }

/-- The module-level mutable variables of the script together with the
DOM-observable effects it mutates. `isOpenClass` is the presence of the
`is-open` class on the overlay (the code's own notion of "open", tested by
`handleKeydown`); `docElems` is the set of element ids currently attached
to the document and `activeElement` is `document.activeElement`;
`overlayFocusables` is the ordered result of the overlay's focusable-element
query (`button:not([disabled]), [tabindex]...`) at the current instant. -/
structure LightboxState where
  currentIndex : Int
  images : List ImageEntry
  lastFocusedElement : Option Nat
  isOpenClass : Bool
  ariaHidden : String
  bodyOverflow : String
  imgSrc : String
  imgAlt : String
  imgOpacity : String
  captionText : String
  currentText : String
  totalText : String
  activeElement : Option Nat
  docElems : List Nat
  overlayFocusables : List Nat
  prefersReducedMotion : Bool
deriving DecidableEq

/-- JavaScript array indexing `images[i]` for an integer `i`: `undefined`
for a negative index or one at or past the end. -/
def imageAt (images : List ImageEntry) (i : Int) : Option ImageEntry :=
  if 0 ≤ i then images.get? i.toNat else none

/-- `HTMLElement.focus()`: sets `document.activeElement` when the element
is attached to the document, otherwise does nothing. -/
def focusElem (e : Nat) (s : LightboxState) : LightboxState :=
  if e ∈ s.docElems then { s with activeElement := some e } else s

/-- `buildImageArray`: projects each gallery item into an `ImageEntry`
carrying its document-order index. -/
def buildImageArray (gallery : List GalleryItem) : List ImageEntry :=
  gallery.mapIdx fun i item => { src := item.imgSrc, alt := item.imgAlt, index := i }

/-- `updateLightboxImage`: returns immediately when `images[currentIndex]`
is undefined; otherwise dereferences `lightboxImage` (throwing when that
anchor is absent), resets its opacity, swaps `src`/`alt`, and updates the
caption and the 1-based counter behind their individual presence guards.
The `onload`-triggered fade back to opacity 1 is asynchronous and outside
the synchronous transition. -/
def updateLightboxImage (A : Anchors) (s : LightboxState) : Except String LightboxState :=
  match imageAt s.images s.currentIndex with
  | none => .ok s
  | some image =>
    if A.lightboxImage then
      let s1 := { s with
        imgOpacity := if s.prefersReducedMotion then "1" else "0",
        imgSrc := image.src,
        imgAlt := image.alt }
      let s2 := if A.lightboxCaption then { s1 with captionText := image.alt } else s1
      let s3 := if A.lightboxCurrent then
          { s2 with currentText := toString (s.currentIndex + 1) } else s2
      .ok s3
    else
      .error "TypeError: lightboxImage is null"

/-- `openLightbox(index)`: no-op when the overlay anchor is absent or the
image array is empty; otherwise sets the cursor, captures the currently
focused element, renders, marks the overlay open (`is-open` class,
`aria-hidden="false"`) and locks body scroll. The deferred
`closeBtn?.focus()` runs later via `setTimeout`. -/
def openLightbox (A : Anchors) (index : Int) (s : LightboxState) :
    Except String LightboxState :=
  if A.lightbox = false ∨ s.images.length = 0 then .ok s
  else
    match updateLightboxImage A
        { s with currentIndex := index, lastFocusedElement := s.activeElement } with
    | .error e => .error e
    | .ok s2 =>
      .ok { s2 with isOpenClass := true, ariaHidden := "false", bodyOverflow := "hidden" }

/-- `closeLightbox()`: removes the `is-open` class, hides from assistive
technology, restores body scroll, and calls `focus()` on the captured
`lastFocusedElement` when it is non-null. The captured reference is left
in place (the code has no `lastFocusedElement = null`). -/
def closeLightbox (A : Anchors) (s : LightboxState) : Except String LightboxState :=
  if A.lightbox = false then .ok s
  else
    let s1 := { s with isOpenClass := false, ariaHidden := "true", bodyOverflow := "" }
    match s.lastFocusedElement with
    | some e => .ok (focusElem e s1)
    | none => .ok s1

/-- `nextImage`: advances the cursor by `(currentIndex + 1) % images.length`
(JavaScript truncated remainder) and re-renders. -/
def nextImage (A : Anchors) (s : LightboxState) : Except String LightboxState :=
  updateLightboxImage A
    { s with currentIndex := Int.tmod (s.currentIndex + 1) (s.images.length : Int) }

/-- `prevImage`: moves the cursor by
`(currentIndex - 1 + images.length) % images.length` and re-renders. -/
def prevImage (A : Anchors) (s : LightboxState) : Except String LightboxState :=
  updateLightboxImage A
    { s with currentIndex :=
        Int.tmod (s.currentIndex - 1 + (s.images.length : Int)) (s.images.length : Int) }

/-- The two navigation directions. -/
inductive NavDir
  | next
  | previous
deriving DecidableEq

/-- One Navigate step: `nextImage` or `prevImage`. -/
def navigate (A : Anchors) (d : NavDir) (s : LightboxState) : Except String LightboxState :=
  match d with
  | .next => nextImage A s
  | .previous => prevImage A s

/-- A finite sequence of Navigate steps, run left to right. -/
def navigates (A : Anchors) (ds : List NavDir) (s : LightboxState) :
    Except String LightboxState :=
  match ds with
  | [] => .ok s
  | d :: rest =>
    match navigate A d s with
    | .error e => .error e
    | .ok s1 => navigates A rest s1

/-- `trapFocus`: recomputes the overlay's focusable controls at trap time
(the current `overlayFocusables`), then wraps: Tab on the last control moves
focus to the first, Shift+Tab on the first moves it to the last; any other
Tab press is left to native handling (no state change here). With no
focusable controls, `focusableElements[0]` is `undefined`, which never
equals `document.activeElement`, so nothing happens. -/
def trapFocus (shiftKey : Bool) (s : LightboxState) : LightboxState :=
  match s.overlayFocusables.head?, s.overlayFocusables.getLast? with
  | some firstEl, some lastEl =>
    if shiftKey then
      if s.activeElement = some firstEl then focusElem lastEl s else s
    else
      if s.activeElement = some lastEl then focusElem firstEl s else s
  | _, _ => s

/-- `handleKeydown`: registered on `document` by `init` (so the overlay
anchor is present whenever it runs); returns immediately unless the overlay
carries the `is-open` class, then dispatches Escape / ArrowRight /
ArrowLeft / Tab. -/
def handleKeydown (A : Anchors) (key : String) (shiftKey : Bool) (s : LightboxState) :
    Except String LightboxState :=
  if A.lightbox = false then .error "TypeError: lightbox is null"
  else if s.isOpenClass = false then .ok s
  else
    match key with
    | "Escape" => closeLightbox A s
    | "ArrowRight" => nextImage A s
    | "ArrowLeft" => prevImage A s
    | "Tab" => .ok (trapFocus shiftKey s)
    | _ => .ok s

/-- Click on the next control: `nextBtn?.addEventListener('click', nextImage)`
calls `nextImage` directly, with no open-state guard. -/
def nextBtnClick (A : Anchors) (s : LightboxState) : Except String LightboxState :=
  nextImage A s

/-- Click on the previous control: wired to `prevImage` directly, with no
open-state guard. -/
def prevBtnClick (A : Anchors) (s : LightboxState) : Except String LightboxState :=
  prevImage A s

/-- `handleSwipe` with the recorded `touchStartX` / `touchEndX`
(`screenX` of the touch points; vertical coordinates are never read):
navigates only when `Math.abs(diff) > 50`, to the next image when
`diff > 0` (leftward swipe) and the previous one otherwise. -/
def handleSwipe (A : Anchors) (touchStartX touchEndX : Int) (s : LightboxState) :
    Except String LightboxState :=
  let diff := touchStartX - touchEndX
  if 50 < |diff| then
    if 0 < diff then nextImage A s else prevImage A s
  else .ok s

/-- `init`: returns immediately when the overlay anchor is absent or the
gallery collection is empty; otherwise builds the image array and publishes
the total count (the event-listener registrations are represented by the
handler functions themselves). -/
def initLightbox (A : Anchors) (gallery : List GalleryItem) (s : LightboxState) :
    LightboxState :=
  if A.lightbox = false ∨ gallery.length = 0 then s
  else
    let s1 := { s with images := buildImageArray gallery }
    if A.lightboxTotal then
      { s1 with totalText := toString (buildImageArray gallery).length }
    else s1

/-- A concrete three-image gallery state with the overlay open, used by
the concrete witnesses below. -/
def sampleOpenState : LightboxState where
  currentIndex := 0
  images := [⟨"a.jpg", "Alt A", 0⟩, ⟨"b.jpg", "Alt B", 1⟩, ⟨"c.jpg", "Alt C", 2⟩]
  lastFocusedElement := some 1
  isOpenClass := true
  ariaHidden := "false"
  bodyOverflow := "hidden"
  imgSrc := "a.jpg"
  imgAlt := "Alt A"
  imgOpacity := "1"
  captionText := "Alt A"
  currentText := "1"
  totalText := "3"
  activeElement := some 2
  docElems := [1, 2, 3, 4]
  overlayFocusables := [2, 3, 4]
  prefersReducedMotion := false

/-- The same gallery with the overlay closed (initial page state after
`init`). -/
def sampleClosedState : LightboxState where
  currentIndex := 0
  images := [⟨"a.jpg", "Alt A", 0⟩, ⟨"b.jpg", "Alt B", 1⟩, ⟨"c.jpg", "Alt C", 2⟩]
  lastFocusedElement := none
  isOpenClass := false
  ariaHidden := "true"
  bodyOverflow := ""
  imgSrc := ""
  imgAlt := ""
  imgOpacity := "1"
  captionText := ""
  currentText := ""
  totalText := "3"
  activeElement := some 1
  docElems := [1, 2, 3, 4]
  overlayFocusables := [2, 3, 4]
  prefersReducedMotion := false

/-! ### Helper lemmas -/

/-- Rendering with an undefined `images[currentIndex]` is a no-op. -/
theorem update_none (A : Anchors) (s : LightboxState)
    (h : imageAt s.images s.currentIndex = none) :
    updateLightboxImage A s = .ok s := by
  unfold updateLightboxImage
  rw [h]

/-- With every anchor present and a defined `images[currentIndex]`,
rendering swaps the image, caption and counter and nothing else. -/
theorem updateFull_eq (s : LightboxState) (image : ImageEntry)
    (himg : imageAt s.images s.currentIndex = some image) :
    updateLightboxImage fullAnchors s = .ok { s with
      imgOpacity := if s.prefersReducedMotion then "1" else "0",
      imgSrc := image.src,
      imgAlt := image.alt,
      captionText := image.alt,
      currentText := toString (s.currentIndex + 1) } := by
  unfold updateLightboxImage
  rw [himg]
  rfl

/-- With every anchor present, rendering never throws and touches only the
image/caption/counter fields. -/
theorem updateFull_exists (s : LightboxState) :
    ∃ s', updateLightboxImage fullAnchors s = .ok s' ∧
      s'.currentIndex = s.currentIndex ∧ s'.images = s.images ∧
      s'.isOpenClass = s.isOpenClass ∧ s'.lastFocusedElement = s.lastFocusedElement ∧
      s'.ariaHidden = s.ariaHidden ∧ s'.bodyOverflow = s.bodyOverflow ∧
      s'.activeElement = s.activeElement ∧ s'.docElems = s.docElems ∧
      s'.overlayFocusables = s.overlayFocusables := by
  cases himg : imageAt s.images s.currentIndex with
  | none =>
    exact ⟨s, update_none _ s himg, rfl, rfl, rfl, rfl, rfl, rfl, rfl, rfl, rfl⟩
  | some image =>
    exact ⟨_, updateFull_eq s image himg, rfl, rfl, rfl, rfl, rfl, rfl, rfl, rfl, rfl⟩

/-- One Navigate step keeps the cursor inside `[0, length)` and never
throws, given a non-empty image array and an in-range starting cursor. -/
theorem navigate_step (d : NavDir) (s : LightboxState)
    (hlen : 0 < s.images.length)
    (h0 : 0 ≤ s.currentIndex) :
    ∃ s', navigate fullAnchors d s = .ok s' ∧ s'.images = s.images ∧
      0 ≤ s'.currentIndex ∧ s'.currentIndex < (s'.images.length : Int) := by
  have hlenI : (0 : Int) < (s.images.length : Int) := by exact_mod_cast hlen
  cases d with
  | next =>
    obtain ⟨s', h, hci, himg, -⟩ :=
      updateFull_exists
        { s with currentIndex := Int.tmod (s.currentIndex + 1) (s.images.length : Int) }
    refine ⟨s', h, by simpa using himg, ?_, ?_⟩
    · rw [hci]
      exact Int.tmod_nonneg _ (by omega)
    · rw [hci, show s'.images = s.images from by simpa using himg]
      exact Int.tmod_lt_of_pos _ hlenI
  | previous =>
    obtain ⟨s', h, hci, himg, -⟩ :=
      updateFull_exists
        { s with currentIndex :=
            Int.tmod (s.currentIndex - 1 + (s.images.length : Int)) (s.images.length : Int) }
    refine ⟨s', h, by simpa using himg, ?_, ?_⟩
    · rw [hci]
      exact Int.tmod_nonneg _ (by omega)
    · rw [hci, show s'.images = s.images from by simpa using himg]
      exact Int.tmod_lt_of_pos _ hlenI

/-! ### Claims -/

/-- C1: for every non-empty image sequence and starting cursor in
`[0, length)`, any finite sequence of Navigate(next)/Navigate(previous)
steps keeps `currentIndex` inside `[0, length)`: never negative, never at
or past the length. -/
theorem c1_index_bounds (ds : List NavDir) (s : LightboxState)
    (hlen : 0 < s.images.length)
    (h0 : 0 ≤ s.currentIndex) (h1 : s.currentIndex < (s.images.length : Int)) :
    ∃ s', navigates fullAnchors ds s = .ok s' ∧ s'.images = s.images ∧
      0 ≤ s'.currentIndex ∧ s'.currentIndex < (s'.images.length : Int) := by
  induction ds generalizing s with
  | nil => exact ⟨s, rfl, rfl, h0, h1⟩
  | cons d rest ih =>
    obtain ⟨s1, hnav, himg, hb0, hb1⟩ := navigate_step d s hlen h0
    have hlen1 : 0 < s1.images.length := himg ▸ hlen
    obtain ⟨s', hrest, himg', hb0', hb1'⟩ := ih s1 hlen1 hb0 hb1
    refine ⟨s', ?_, by rw [himg', himg], hb0', hb1'⟩
    unfold navigates
    rw [hnav]
    exact hrest

/-- Witness for C1 at a concrete three-image state and a concrete
navigation sequence. -/
theorem c1_index_bounds_witness :
    ∃ s', navigates fullAnchors [NavDir.next, NavDir.next, NavDir.previous]
        sampleOpenState = .ok s' ∧ s'.images = sampleOpenState.images ∧
      0 ≤ s'.currentIndex ∧ s'.currentIndex < (s'.images.length : Int) :=
  c1_index_bounds [NavDir.next, NavDir.next, NavDir.previous] sampleOpenState
    (by decide) (by decide) (by decide)

/-- C2: Navigate wraps at both ends — next at the last index yields 0,
previous at index 0 yields `length - 1`, and with a single image every
next/previous yields 0, never throwing. -/
theorem c2_wraparound (s : LightboxState) (hlen : 0 < s.images.length) :
    (s.currentIndex = (s.images.length : Int) - 1 →
      ∃ s', nextImage fullAnchors s = .ok s' ∧ s'.currentIndex = 0) ∧
    (s.currentIndex = 0 →
      ∃ s', prevImage fullAnchors s = .ok s' ∧
        s'.currentIndex = (s.images.length : Int) - 1) ∧
    (s.images.length = 1 →
      (∃ s', nextImage fullAnchors s = .ok s' ∧ s'.currentIndex = 0) ∧
      (∃ s', prevImage fullAnchors s = .ok s' ∧ s'.currentIndex = 0)) := by
  have hlenI : (0 : Int) < (s.images.length : Int) := by exact_mod_cast hlen
  refine ⟨?_, ?_, ?_⟩
  · intro hidx
    obtain ⟨s', h, hci, -⟩ :=
      updateFull_exists
        { s with currentIndex := Int.tmod (s.currentIndex + 1) (s.images.length : Int) }
    refine ⟨s', h, ?_⟩
    rw [hci]
    show Int.tmod (s.currentIndex + 1) (s.images.length : Int) = 0
    rw [hidx, show ((s.images.length : Int) - 1 + 1) = (s.images.length : Int) from by ring]
    exact Int.tmod_self
  · intro hidx
    obtain ⟨s', h, hci, -⟩ :=
      updateFull_exists
        { s with currentIndex :=
            Int.tmod (s.currentIndex - 1 + (s.images.length : Int)) (s.images.length : Int) }
    refine ⟨s', h, ?_⟩
    rw [hci]
    show Int.tmod (s.currentIndex - 1 + (s.images.length : Int)) (s.images.length : Int) =
      (s.images.length : Int) - 1
    rw [hidx,
      show ((0 : Int) - 1 + (s.images.length : Int)) = (s.images.length : Int) - 1 from by ring]
    exact Int.tmod_eq_of_lt (by omega) (by omega)
  · intro hone
    constructor
    · obtain ⟨s', h, hci, -⟩ :=
        updateFull_exists
          { s with currentIndex := Int.tmod (s.currentIndex + 1) (s.images.length : Int) }
      refine ⟨s', h, ?_⟩
      rw [hci]
      show Int.tmod (s.currentIndex + 1) (s.images.length : Int) = 0
      simp [hone]
    · obtain ⟨s', h, hci, -⟩ :=
        updateFull_exists
          { s with currentIndex :=
              Int.tmod (s.currentIndex - 1 + (s.images.length : Int)) (s.images.length : Int) }
      refine ⟨s', h, ?_⟩
      rw [hci]
      show Int.tmod (s.currentIndex - 1 + (s.images.length : Int)) (s.images.length : Int) = 0
      simp [hone]

/-- Witness for C2: next from the last index of the concrete three-image
state wraps to 0. -/
theorem c2_wraparound_witness :
    ∃ s', nextImage fullAnchors { sampleOpenState with currentIndex := 2 } = .ok s' ∧
      s'.currentIndex = 0 :=
  (c2_wraparound { sampleOpenState with currentIndex := 2 } (by decide)).1 (by decide)

/-- C3: with zero gallery entries the image array is empty, `init` leaves
the state untouched, and `openLightbox` at any index is a no-op, so the
overlay never gains the `is-open` class. -/
theorem c3_empty_gallery (A : Anchors) (i : Int) (s s0 : LightboxState)
    (h : s.images = []) :
    openLightbox A i s = .ok s ∧
    (s.isOpenClass = false →
      (openLightbox A i s).map (fun t => t.isOpenClass) = .ok false) ∧
    initLightbox A [] s0 = s0 := by
  have hopen : openLightbox A i s = .ok s := by
    unfold openLightbox
    rw [h]
    simp
  refine ⟨hopen, ?_, ?_⟩
  · intro hclosed
    rw [hopen]
    simp [Except.map, hclosed]
  · unfold initLightbox
    simp

/-- Witness for C3 at a concrete empty-gallery state. -/
theorem c3_empty_gallery_witness :
    openLightbox fullAnchors 4 { sampleClosedState with images := [] } =
        .ok { sampleClosedState with images := [] } ∧
    ({ sampleClosedState with images := [] }.isOpenClass = false →
      (openLightbox fullAnchors 4 { sampleClosedState with images := [] }).map
          (fun t => t.isOpenClass) = .ok false) ∧
    initLightbox fullAnchors [] sampleClosedState = sampleClosedState :=
  c3_empty_gallery fullAnchors 4 { sampleClosedState with images := [] }
    sampleClosedState (by decide)

/-- C4 counterexample: at a concrete open state whose captured element is
element 1, `closeLightbox` leaves `lastFocusedElement = some 1` — the
captured reference is never cleared (the code has no
`lastFocusedElement = null` assignment), contradicting the claim that
Close "clears the captured reference afterwards". -/
theorem c4_counterexample :
    (closeLightbox fullAnchors sampleOpenState).map (fun t => t.lastFocusedElement) =
      .ok (some 1) ∧ (some 1 : Option Nat) ≠ none := by
  constructor
  · rfl
  · decide

/-- C4 (amended): Close() calls `focus()` on the captured element whenever
the reference is non-null; focus actually moves exactly when that element
is still attached to the document (per `HTMLElement.focus()` semantics) and
is left unmoved otherwise; the captured reference is retained, not
cleared. -/
theorem c4_focus_restore (s : LightboxState) (e : Nat)
    (h : s.lastFocusedElement = some e) :
    ∃ s', closeLightbox fullAnchors s = .ok s' ∧
      s'.lastFocusedElement = some e ∧
      (e ∈ s.docElems → s'.activeElement = some e) ∧
      (e ∉ s.docElems → s'.activeElement = s.activeElement) ∧
      s'.isOpenClass = false ∧ s'.ariaHidden = "true" ∧ s'.bodyOverflow = "" := by
  have hstep : closeLightbox fullAnchors s =
      .ok (focusElem e
        { s with isOpenClass := false, ariaHidden := "true", bodyOverflow := "" }) := by
    unfold closeLightbox
    rw [h]
    rfl
  rw [hstep]
  by_cases hmem : e ∈ s.docElems
  · refine ⟨_, rfl, ?_, ?_, ?_, ?_, ?_, ?_⟩ <;> simp [focusElem, hmem, h]
  · refine ⟨_, rfl, ?_, ?_, ?_, ?_, ?_, ?_⟩ <;> simp [focusElem, hmem, h]

/-- Witness for the amended C4 at the concrete open state (captured
element 1 is attached, so focus returns to it and the reference stays). -/
theorem c4_focus_restore_witness :
    ∃ s', closeLightbox fullAnchors sampleOpenState = .ok s' ∧
      s'.lastFocusedElement = some 1 ∧
      (1 ∈ sampleOpenState.docElems → s'.activeElement = some 1) ∧
      (1 ∉ sampleOpenState.docElems → s'.activeElement = sampleOpenState.activeElement) ∧
      s'.isOpenClass = false ∧ s'.ariaHidden = "true" ∧ s'.bodyOverflow = "" :=
  c4_focus_restore sampleOpenState 1 (by decide)

/-- C5 counterexample: at a concrete closed state (no `is-open` class),
a click on the next control still runs `nextImage` — the control-click and
swipe handlers carry no open-state guard — moving `currentIndex` from 0 to
1, so Navigate while closed is not a no-op on every input path. -/
theorem c5_counterexample :
    sampleClosedState.isOpenClass = false ∧
    sampleClosedState.currentIndex = 0 ∧
    (nextBtnClick fullAnchors sampleClosedState).map (fun t => t.currentIndex) =
      .ok 1 := by
  refine ⟨rfl, rfl, ?_⟩
  rfl

/-- C5 (amended): a Navigate reaching the controller through the document
key handler while the overlay is closed is a no-op — `handleKeydown`
returns before dispatching whenever the `is-open` class is absent, for
every key — whereas the control-click and swipe paths are wired to
`nextImage`/`prevImage` with no open-state guard (while closed they are
only unreachable through the UI because the overlay is hidden). -/
theorem c5_closed_keyboard_noop (A : Anchors) (key : String) (shiftKey : Bool)
    (s : LightboxState) (hA : A.lightbox = true) (hclosed : s.isOpenClass = false) :
    handleKeydown A key shiftKey s = .ok s := by
  simp [handleKeydown, hA, hclosed]

/-- Witness for the amended C5: ArrowRight at the concrete closed state
changes nothing. -/
theorem c5_closed_keyboard_noop_witness :
    handleKeydown fullAnchors "ArrowRight" false sampleClosedState =
      .ok sampleClosedState :=
  c5_closed_keyboard_noop fullAnchors "ArrowRight" false sampleClosedState
    (by decide) (by decide)

/-- A state already bearing Close's effects is a fixpoint of Close. -/
theorem close_fixpoint (s1 : LightboxState)
    (h1 : s1.isOpenClass = false) (h2 : s1.ariaHidden = "true")
    (h3 : s1.bodyOverflow = "")
    (h4 : ∀ e, s1.lastFocusedElement = some e → e ∈ s1.docElems →
      s1.activeElement = some e) :
    closeLightbox fullAnchors s1 = .ok s1 := by
  obtain ⟨c, i, l, o, ah, b, f1, f2, f3, f4, f5, f6, ae, de, fo, pm⟩ := s1
  dsimp only at h1 h2 h3 h4
  subst h1 h2 h3
  unfold closeLightbox
  cases l with
  | none => rfl
  | some e =>
    have hae := h4 e rfl
    by_cases hmem : e ∈ de
    · rw [hae hmem]
      unfold focusElem
      simp only [if_pos hmem]
      rfl
    · unfold focusElem
      simp only
      rw [if_neg hmem]
      rfl

/-- What Close produces, for any starting state: the three field writes
plus the conditional focus restoration. -/
theorem close_result (s : LightboxState) :
    ∃ s1, closeLightbox fullAnchors s = .ok s1 ∧ s1.isOpenClass = false ∧
      s1.ariaHidden = "true" ∧ s1.bodyOverflow = "" ∧
      s1.lastFocusedElement = s.lastFocusedElement ∧
      (∀ e, s.lastFocusedElement = some e → e ∈ s.docElems →
        s1.activeElement = some e) ∧
      s1.docElems = s.docElems := by
  unfold closeLightbox
  cases hlf : s.lastFocusedElement with
  | none =>
    refine ⟨_, rfl, rfl, rfl, rfl, rfl, ?_, rfl⟩
    intro e he
    exact absurd he (by simp)
  | some e =>
    by_cases hmem : e ∈ s.docElems
    · refine ⟨_, rfl, ?_, ?_, ?_, ?_, ?_, ?_⟩ <;>
        simp [focusElem, hmem, hlf]
    · refine ⟨_, rfl, ?_, ?_, ?_, ?_, ?_, ?_⟩ <;>
        simp [focusElem, hmem, hlf]

/-- What Open produces on a non-empty gallery with all anchors present. -/
theorem open_result (k : Int) (s : LightboxState) (hne : s.images.length ≠ 0) :
    ∃ s1, openLightbox fullAnchors k s = .ok s1 ∧ s1.currentIndex = k ∧
      s1.images = s.images ∧ s1.isOpenClass = true ∧ s1.ariaHidden = "false" ∧
      s1.bodyOverflow = "hidden" ∧ s1.lastFocusedElement = s.activeElement ∧
      s1.activeElement = s.activeElement ∧ s1.docElems = s.docElems := by
  unfold openLightbox
  rw [if_neg (by simp [fullAnchors, hne])]
  obtain ⟨s2, hupd, hci, himg, -, hlf, -, -, hae, hde, -⟩ :=
    updateFull_exists { s with currentIndex := k, lastFocusedElement := s.activeElement }
  rw [hupd]
  exact ⟨_, rfl, by simpa using hci, by simpa using himg, rfl, rfl, rfl,
    by simpa using hlf, by simpa using hae, by simpa using hde⟩

/-- C6: Close is idempotent — the state produced by one Close is a fixpoint
of Close, so closing twice observes the same state as closing once — and
opening at `k` twice in a row leaves `currentIndex = k` with the scroll
lock being the single boolean-style write `overflow = "hidden"` both times
(nothing stacks or counts). -/
theorem c6_idempotence (s : LightboxState) (k : Int) (hne : s.images.length ≠ 0) :
    (∃ s1, closeLightbox fullAnchors s = .ok s1 ∧
      closeLightbox fullAnchors s1 = .ok s1) ∧
    (∃ s1 s2, openLightbox fullAnchors k s = .ok s1 ∧
      openLightbox fullAnchors k s1 = .ok s2 ∧
      s1.currentIndex = k ∧ s2.currentIndex = k ∧
      s1.bodyOverflow = "hidden" ∧ s2.bodyOverflow = "hidden" ∧
      s1.isOpenClass = true ∧ s2.isOpenClass = true) := by
  constructor
  · obtain ⟨s1, hc, h1, h2, h3, hlf, hact, hde⟩ := close_result s
    refine ⟨s1, hc, close_fixpoint s1 h1 h2 h3 ?_⟩
    intro e he hm
    rw [hlf] at he
    rw [hde] at hm
    exact hact e he hm
  · obtain ⟨s1, ho1, hci1, himg1, hopen1, -, hbo1, -, -, -⟩ := open_result k s hne
    obtain ⟨s2, ho2, hci2, -, hopen2, -, hbo2, -, -, -⟩ :=
      open_result k s1 (by rw [himg1]; exact hne)
    exact ⟨s1, s2, ho1, ho2, hci1, hci2, hbo1, hbo2, hopen1, hopen2⟩

/-- Witness for C6 at the concrete closed three-image state, opening at
index 1. -/
theorem c6_idempotence_witness :
    (∃ s1, closeLightbox fullAnchors sampleClosedState = .ok s1 ∧
      closeLightbox fullAnchors s1 = .ok s1) ∧
    (∃ s1 s2, openLightbox fullAnchors 1 sampleClosedState = .ok s1 ∧
      openLightbox fullAnchors 1 s1 = .ok s2 ∧
      s1.currentIndex = 1 ∧ s2.currentIndex = 1 ∧
      s1.bodyOverflow = "hidden" ∧ s2.bodyOverflow = "hidden" ∧
      s1.isOpenClass = true ∧ s2.isOpenClass = true) :=
  c6_idempotence sampleClosedState 1 (by decide)

/-- C7: a swipe navigates only when the recorded horizontal displacement
`touchStartX - touchEndX` has magnitude strictly above the 50px threshold
(a displacement of 49 or exactly 50 does nothing, 51 navigates); a
leftward swipe (`touchEndX` left of `touchStartX`, positive difference)
triggers Navigate(next) and a rightward one Navigate(previous). The
handlers record only `screenX`, so vertical displacement plays no role by
construction. -/
theorem c7_swipe_threshold (touchStartX touchEndX : Int) (s : LightboxState) :
    (|touchStartX - touchEndX| ≤ 50 →
      handleSwipe fullAnchors touchStartX touchEndX s = .ok s) ∧
    (50 < touchStartX - touchEndX →
      handleSwipe fullAnchors touchStartX touchEndX s = nextImage fullAnchors s) ∧
    (touchStartX - touchEndX < -50 →
      handleSwipe fullAnchors touchStartX touchEndX s = prevImage fullAnchors s) := by
  refine ⟨?_, ?_, ?_⟩ <;> intro h <;> unfold handleSwipe
  · rw [if_neg (not_lt.mpr h)]
  · rw [if_pos (lt_of_lt_of_le h (le_abs_self _)), if_pos (by omega)]
  · rw [if_pos (by rw [abs_of_neg (by omega : touchStartX - touchEndX < 0)]; omega),
      if_neg (by omega)]

/-- Witness for C7: a 49px swipe does not navigate, a 51px leftward swipe
triggers next, a 51px rightward swipe triggers previous, at the concrete
open state. -/
theorem c7_swipe_threshold_witness :
    handleSwipe fullAnchors 100 51 sampleOpenState = .ok sampleOpenState ∧
    handleSwipe fullAnchors 100 49 sampleOpenState =
      nextImage fullAnchors sampleOpenState ∧
    handleSwipe fullAnchors 49 100 sampleOpenState =
      prevImage fullAnchors sampleOpenState :=
  ⟨(c7_swipe_threshold 100 51 sampleOpenState).1 (by decide),
   (c7_swipe_threshold 100 49 sampleOpenState).2.1 (by decide),
   (c7_swipe_threshold 49 100 sampleOpenState).2.2 (by decide)⟩

/-- C8: the focus trap recomputes the overlay's focusable controls at trap
time (the query result at the instant of the Tab press) and wraps at both
ends: Tab with focus on the last control moves focus to the first, and
Shift+Tab with focus on the first moves it to the last; any other Tab
press inside the trap leaves the state untouched (the browser's native
move proceeds). -/
theorem c8_focus_trap (s : LightboxState) (firstEl lastEl : Nat)
    (hf : s.overlayFocusables.head? = some firstEl)
    (hl : s.overlayFocusables.getLast? = some lastEl)
    (hfd : firstEl ∈ s.docElems) (hld : lastEl ∈ s.docElems) :
    (s.activeElement = some lastEl →
      (trapFocus false s).activeElement = some firstEl) ∧
    (s.activeElement = some firstEl →
      (trapFocus true s).activeElement = some lastEl) ∧
    (s.activeElement ≠ some lastEl → trapFocus false s = s) ∧
    (s.activeElement ≠ some firstEl → trapFocus true s = s) := by
  unfold trapFocus
  rw [hf, hl]
  refine ⟨?_, ?_, ?_, ?_⟩ <;> intro h
  · simp [h, focusElem, hfd]
  · simp [h, focusElem, hld]
  · simp [h]
  · simp [h]

/-- Witness for C8 at the concrete open state with focusable controls
`[2, 3, 4]`: Tab on the last (4) wraps to the first (2), Shift+Tab on the
first wraps to the last. -/
theorem c8_focus_trap_witness :
    (trapFocus false { sampleOpenState with activeElement := some 4 }).activeElement =
      some 2 ∧
    (trapFocus true sampleOpenState).activeElement = some 4 :=
  ⟨(c8_focus_trap { sampleOpenState with activeElement := some 4 } 2 4
      (by decide) (by decide) (by decide) (by decide)).1 (by decide),
   (c8_focus_trap sampleOpenState 2 4
      (by decide) (by decide) (by decide) (by decide)).2.1 (by decide)⟩

/-- Rendering cannot throw when the image-slot anchor is present. -/
theorem update_ok_of_slot (A : Anchors) (s : LightboxState)
    (hA : A.lightboxImage = true) :
    ∃ s', updateLightboxImage A s = .ok s' := by
  unfold updateLightboxImage
  cases imageAt s.images s.currentIndex with
  | none => exact ⟨s, rfl⟩
  | some image =>
    dsimp only
    rw [if_pos hA]
    exact ⟨_, rfl⟩

/-- Rendering throws when the image-slot anchor is absent and the cursor
points at an existing image. -/
theorem update_err_of_no_slot (A : Anchors) (s : LightboxState) (image : ImageEntry)
    (hA : A.lightboxImage = false)
    (himg : imageAt s.images s.currentIndex = some image) :
    updateLightboxImage A s = .error "TypeError: lightboxImage is null" := by
  unfold updateLightboxImage
  rw [himg]
  dsimp only
  rw [if_neg (show ¬A.lightboxImage = true by simp [hA])]

/-- C9 counterexample: with every anchor present except the main image
slot (`#lightbox-image`), Open at a valid index of a non-empty gallery
throws a TypeError — `updateLightboxImage` dereferences `lightboxImage`
with no presence guard — so not every absent anchor degrades to a
never-throwing no-op. -/
theorem c9_counterexample :
    openLightbox noImageSlotAnchors 0 sampleClosedState =
      .error "TypeError: lightboxImage is null" := by
  rfl

/-- C9 (amended): absence of the overlay anchor makes Open and Close
no-ops; the caption, counter, total and button anchors are individually
guarded, so with the image slot present Open never throws whatever else is
missing; but absence of the main image slot itself is unguarded — Open at
an index holding an image throws a TypeError instead of no-opping. -/
theorem c9_missing_anchor (A : Anchors) (i : Int) (s : LightboxState) :
    (A.lightbox = false →
      openLightbox A i s = .ok s ∧ closeLightbox A s = .ok s) ∧
    (A.lightboxImage = true → ∃ s', openLightbox A i s = .ok s') ∧
    (∀ image, A.lightbox = true → A.lightboxImage = false →
      imageAt s.images i = some image →
      openLightbox A i s = .error "TypeError: lightboxImage is null") := by
  refine ⟨?_, ?_, ?_⟩
  · intro hA
    constructor
    · unfold openLightbox
      rw [if_pos (Or.inl hA)]
    · unfold closeLightbox
      rw [if_pos hA]
  · intro hA
    unfold openLightbox
    by_cases hg : A.lightbox = false ∨ s.images.length = 0
    · rw [if_pos hg]
      exact ⟨s, rfl⟩
    · rw [if_neg hg]
      obtain ⟨s', h⟩ := update_ok_of_slot A
        { s with currentIndex := i, lastFocusedElement := s.activeElement } hA
      rw [h]
      exact ⟨_, rfl⟩
  · intro image hA hslot himg
    have hlen : s.images.length ≠ 0 := by
      unfold imageAt at himg
      by_cases h0 : (0 : Int) ≤ i
      · rw [if_pos h0] at himg
        obtain ⟨hb, -⟩ := List.get?_eq_some.mp himg
        omega
      · rw [if_neg h0] at himg
        exact absurd himg (by simp)
    unfold openLightbox
    rw [if_neg (by simp [hA, hlen])]
    rw [update_err_of_no_slot A
      { s with currentIndex := i, lastFocusedElement := s.activeElement } image hslot himg]

/-- Witness for the amended C9 at concrete inputs: overlay missing makes
Open/Close no-ops; with the image slot present Open succeeds; with only
the image slot missing Open throws. -/
theorem c9_missing_anchor_witness :
    ({ fullAnchors with lightbox := false }.lightbox = false →
      openLightbox { fullAnchors with lightbox := false } 0 sampleClosedState =
          .ok sampleClosedState ∧
        closeLightbox { fullAnchors with lightbox := false } sampleClosedState =
          .ok sampleClosedState) ∧
    (fullAnchors.lightboxImage = true →
      ∃ s', openLightbox fullAnchors 0 sampleClosedState = .ok s') ∧
    (∀ image, noImageSlotAnchors.lightbox = true →
      noImageSlotAnchors.lightboxImage = false →
      imageAt sampleClosedState.images 0 = some image →
      openLightbox noImageSlotAnchors 0 sampleClosedState =
        .error "TypeError: lightboxImage is null") :=
  ⟨(c9_missing_anchor { fullAnchors with lightbox := false } 0 sampleClosedState).1,
   (c9_missing_anchor fullAnchors 0 sampleClosedState).2.1,
   (c9_missing_anchor noImageSlotAnchors 0 sampleClosedState).2.2⟩

/-- C10: opening a non-empty gallery at an out-of-range index still
transitions to open with `currentIndex` set to that value, while the
render step finds `images[currentIndex]` undefined and returns before
touching any image entry or DOM field: the displayed image, caption,
counter and opacity are all unchanged and nothing throws. -/
theorem c10_out_of_range_open (s : LightboxState) (index : Int)
    (hlen : 0 < s.images.length)
    (hout : index < 0 ∨ (s.images.length : Int) ≤ index) :
    ∃ s', openLightbox fullAnchors index s = .ok s' ∧
      s'.isOpenClass = true ∧ s'.currentIndex = index ∧
      s'.imgSrc = s.imgSrc ∧ s'.imgAlt = s.imgAlt ∧
      s'.captionText = s.captionText ∧ s'.currentText = s.currentText ∧
      s'.imgOpacity = s.imgOpacity := by
  have hnone : imageAt s.images index = none := by
    unfold imageAt
    rcases hout with h | h
    · rw [if_neg (by omega)]
    · rw [if_pos (by omega)]
      exact List.get?_eq_none.mpr (by omega)
  unfold openLightbox
  rw [if_neg (show ¬(fullAnchors.lightbox = false ∨ s.images.length = 0) from by
    rintro (h | h)
    · exact absurd h (by decide)
    · omega)]
  rw [update_none fullAnchors
    { s with currentIndex := index, lastFocusedElement := s.activeElement } hnone]
  exact ⟨_, rfl, rfl, rfl, rfl, rfl, rfl, rfl, rfl⟩

/-- Witness for C10: opening the concrete three-image gallery at index 7
opens with cursor 7 and renders nothing. -/
theorem c10_out_of_range_open_witness :
    ∃ s', openLightbox fullAnchors 7 sampleClosedState = .ok s' ∧
      s'.isOpenClass = true ∧ s'.currentIndex = 7 ∧
      s'.imgSrc = sampleClosedState.imgSrc ∧ s'.imgAlt = sampleClosedState.imgAlt ∧
      s'.captionText = sampleClosedState.captionText ∧
      s'.currentText = sampleClosedState.currentText ∧
      s'.imgOpacity = sampleClosedState.imgOpacity :=
  c10_out_of_range_open sampleClosedState 7 (by decide) (by decide)
